import Mathlib

/-!
Verification development for the radar-backend service.

The service (src/main.py) is a FastAPI application over two PostgreSQL
tables (conversations, messages; see src/models.py and the initial
migration).  We embed it shallowly: the database is an explicit record of
row lists together with an id supply (modelling uuid4) and a clock
(modelling the server-side now() default on timestamp columns, which is
strictly increasing across statements); the outbound effects (the
r.jina.ai page fetch plus HTML text extraction, and the two ell LLM calls
with structured output) are an oracle record of Except-valued functions;
each endpoint is a pure function from the oracle, the database and the
request to a response-or-error and the new database.
-/

namespace Radar

/-- JSON documents, as stored in the world_model column (a JSON column;
the service only ever writes json.dumps of a pydantic model dict, so
null / string / array / object suffice). -/
inductive Json where
  | null : Json
  | str : String → Json
  | arr : List Json → Json
  | obj : List (String × Json) → Json

/-- Top-level keys of a JSON document (empty for non-objects). -/
def Json.keys : Json → List String
  | .obj fs => fs.map (fun p => p.1)
  | _ => []

/-- Whether a JSON document has a given top-level field. -/
def Json.hasKey (j : Json) (k : String) : Bool :=
  (Json.keys j).contains k

/-- The WorldModel pydantic model of src/main.py lines 73-77: context is
Optional with default {}, topics and questions default to [], summary is
required. -/
structure WorldModel where
  context : Option (List (String × String))
  topics : List String
  questions : List String
  summary : String

def parseStringPair? : (String × Json) → Option (String × String)
  | (k, .str v) => some (k, v)
  | _ => none

/-- Validation of a Dict[str, str] value. -/
def parseStringMap? (j : Json) : Option (List (String × String)) :=
  match j with
  | .obj fs => fs.mapM parseStringPair?
  | _ => none

def parseString? : Json → Option String
  | .str s => some s
  | _ => none

/-- Validation of a List[str] value. -/
def parseStringList? (j : Json) : Option (List String) :=
  match j with
  | .arr xs => xs.mapM parseString?
  | _ => none

/-- Validation of the context field: absent gives the default {}, an
explicit null gives None (the field is Optional), otherwise the value
must validate as Dict[str, str]. -/
def parseContext? (fs : List (String × Json)) : Option (Option (List (String × String))) :=
  match fs.lookup "context" with
  | none => some (some [])
  | some .null => some none
  | some v => (parseStringMap? v).map some

/-- Validation of a List[str] field with default_factory=list: absent
gives []. -/
def parseListField? (fs : List (String × Json)) (name : String) : Option (List String) :=
  match fs.lookup name with
  | none => some []
  | some v => parseStringList? v

/-- Pydantic validation WorldModel(**json.loads(doc)) as invoked at
src/main.py line 305: the document must be an object whose summary field
is present and a string; context, topics, questions validate with their
defaults; extra fields are ignored. -/
def WorldModel.parse? (j : Json) : Option WorldModel :=
  match j with
  | .obj fs =>
    match fs.lookup "summary" with
    | some (.str s) =>
      match parseContext? fs, parseListField? fs "topics", parseListField? fs "questions" with
      | some ctx, some ts, some qs => some ⟨ctx, ts, qs, s⟩
      | _, _, _ => none
    | _ => none
  | _ => none

/-- Serialization json.dumps(model.dict()) as written to the world_model
column (src/main.py lines 212 and 320): an object with exactly the four
declared fields, in declaration order. -/
def WorldModel.toJson (w : WorldModel) : Json :=
  .obj
    [("context", match w.context with
        | some m => .obj (m.map (fun p => (p.1, Json.str p.2)))
        | none => .null),
     ("topics", .arr (w.topics.map Json.str)),
     ("questions", .arr (w.questions.map Json.str)),
     ("summary", .str w.summary)]

/-- Structured output of the analyze_content LLM call (src/main.py 79-82). -/
structure AnalysisResponse where
  world_model : WorldModel
  response : String
  follow_up : String

/-- Structured output of the continue_conversation LLM call (src/main.py 84-88). -/
structure ConversationUpdate where
  updated_world_model : WorldModel
  response : String
  follow_up : String
  referenced_content : Option String

/-- A row of the conversations table (src/models.py, initial migration).
UUIDs are modelled as naturals drawn from the database id supply;
created_at is stamped from the clock. -/
structure ConversationRow where
  id : Nat
  url : String
  media_type : String
  user_insight : String
  ai_analysis : String
  world_model : Json
  created_at : Nat

/-- A row of the messages table. -/
structure MessageRow where
  id : Nat
  conversation_id : Nat
  role : String
  content : String
  timestamp : Nat

/-- A row of the webhooks table (src/main.py 264-273). -/
structure WebhookRow where
  id : Nat
  url : String
  secret : String
  events : List String

/-- The database state: the row lists, the uuid4 supply (nextId) and the
now() clock stamped on inserted rows. -/
structure DB where
  conversations : List ConversationRow
  messages : List MessageRow
  webhooks : List WebhookRow
  nextId : Nat
  clock : Nat

/-- Exceptions surfacing from a request handler: an HTTPException with a
status code and a detail string, or any other Python exception rendered
by str(exc) (the global handler at src/main.py 344-355 turns the latter
into a 500). -/
inductive ApiError where
  | httpError : Nat → String → ApiError
  | pyError : String → ApiError

/-- Python str(exc): starlette renders HTTPException as "code: detail";
a plain exception renders as its message. -/
def exceptionStr : ApiError → String
  | .httpError code detail => toString code ++ ": " ++ detail
  | .pyError msg => msg

/-- HTTP status of the JSON error response produced for an exception:
HTTPException keeps its code, everything else is turned into a 500 by the
global exception handler. -/
def errorStatus : ApiError → Nat
  | .httpError code _ => code
  | .pyError _ => 500

/-- Detail string of the JSON error response. -/
def errorDetail : ApiError → String
  | .httpError _ detail => detail
  | .pyError msg => msg

/-- The error response body shape: a JSON object with a single detail
field, produced both by the HTTPException handler and by the global
handler. -/
structure ErrorBody where
  detail : String

/-- Rendering of an exception to the client: status code plus a body of
shape with a single detail field. -/
def renderError (e : ApiError) : Nat × ErrorBody :=
  (errorStatus e, ⟨errorDetail e⟩)

def ExOk {α : Type} : Except ApiError α → Bool
  | .ok _ => true
  | .error _ => false

/-- The outbound-effect oracle: fetchPage is requests.get on the Jina
reader URL composed with BeautifulSoup get_text (src/main.py 103-107);
analyzeContent and continueConv are the two ell LLM calls, whose
structured output parses into the declared response models.  An error
value is the str() of the exception the call raised. -/
structure Env where
  fetchPage : String → Except String String
  analyzeContent : String → String → Except String AnalysisResponse
  continueConv : WorldModel → List (String × String) → Option String → Except String ConversationUpdate

/- ----------------------------------------------------------------- -/
/- String and URL helpers (re.search substring matching, and the path
   component of urllib.parse.urlparse).                               -/
/- ----------------------------------------------------------------- -/

/-- Whether the second list is an initial segment of the first. -/
def listStartsWith : List Char → List Char → Bool
  | _, [] => true
  | [], _ :: _ => false
  | c :: cs, p :: ps => c == p && listStartsWith cs ps

/-- Whether the pattern occurs as a contiguous sublist. -/
def listContainsSub (l p : List Char) : Bool :=
  match l with
  | [] => listStartsWith [] p
  | c :: cs => listStartsWith (c :: cs) p || listContainsSub cs p

/-- Whether the first list ends with the second. -/
def listEndsWith (l p : List Char) : Bool :=
  listStartsWith l.reverse p.reverse

/-- Substring containment on strings (the effect of re.search with a
regex that is an alternation of literal strings). -/
def containsSubstr (s pat : String) : Bool :=
  listContainsSub s.toList pat.toList

def lowerChars (l : List Char) : List Char :=
  l.map Char.toLower

/-- Characters before the first occurrence of c (the whole list when c
is absent). -/
def beforeChar (c : Char) (l : List Char) : List Char :=
  l.takeWhile (fun x => x != c)

/-- Characters allowed in a URL scheme after the initial letter. -/
def isSchemeChar (c : Char) : Bool :=
  c.isAlpha || c.isDigit || c == '+' || c == '-' || c == '.'

def headIsAlpha : List Char → Bool
  | [] => false
  | c :: _ => c.isAlpha

/-- Scheme splitting of urlparse: a colon not in first position, with an
alphabetic head and scheme characters before it, yields the lowercased
scheme and the remainder; otherwise the scheme is empty. -/
def splitScheme (l : List Char) : List Char × List Char :=
  let pre := beforeChar ':' l
  if pre.length < l.length ∧ pre ≠ [] ∧ headIsAlpha pre = true ∧ pre.all isSchemeChar = true then
    (lowerChars pre, l.drop (pre.length + 1))
  else ([], l)

/-- Netloc removal: after a leading double slash, the netloc extends to
the first slash, question mark or hash; the path keeps the delimiter. -/
def dropNetloc (l : List Char) : List Char :=
  (l.drop 2).dropWhile (fun c => !(c == '/' || c == '?' || c == '#'))

/-- Schemes for which urlparse splits parameters off the last path
segment (uses_params of urllib.parse). -/
def uses_params : List (List Char) :=
  [[], "ftp".toList, "hdl".toList, "prospero".toList, "http".toList, "imap".toList,
   "mailto".toList, "mms".toList, "news".toList, "nntp".toList, "rtsp".toList,
   "rtspu".toList, "sftp".toList, "shttp".toList, "sip".toList, "sips".toList,
   "snews".toList, "svn".toList, "svn+ssh".toList, "telnet".toList, "wais".toList,
   "ws".toList, "wss".toList, "https".toList]

/-- Splitting a character list on a separator character. -/
def listSplitOnChar (c : Char) : List Char → List (List Char)
  | [] => [[]]
  | x :: xs =>
    match listSplitOnChar c xs with
    | [] => [[x]]
    | h :: t => if x == c then [] :: h :: t else (x :: h) :: t

/-- Rejoining of slash-separated segments. -/
def joinSegs : List (List Char) → List Char
  | [] => []
  | [s] => s
  | s :: r :: t => s ++ '/' :: joinSegs (r :: t)

/-- Parameter removal of urlparse: parameters start at the first
semicolon of the last slash-separated segment; a path whose last segment
has no semicolon is unchanged. -/
def stripParams (p : List Char) : List Char :=
  let segs := listSplitOnChar '/' p
  match segs.getLast? with
  | none => p
  | some last =>
    if last.contains ';' then joinSegs (segs.dropLast ++ [beforeChar ';' last])
    else p

/-- Path component of urllib.parse.urlparse: tab, CR and LF are removed,
then scheme, netloc, fragment and query are split off, and parameters
are removed when the scheme uses them. -/
def urlPathChars (url : List Char) : List Char :=
  let l := url.filter (fun c => !(c == '\t' || c == '\r' || c == '\n'))
  let sp := splitScheme l
  let rest := if listStartsWith sp.2 ['/', '/'] then dropNetloc sp.2 else sp.2
  let rest := beforeChar '#' rest
  let rest := beforeChar '?' rest
  if uses_params.contains sp.1 then stripParams rest else rest

def urlparse_path (url : String) : String :=
  String.mk (urlPathChars url.toList)

/- ----------------------------------------------------------------- -/
/- Media processing (src/main.py 94-130).                             -/
/- ----------------------------------------------------------------- -/

def JINA_READER_URL : String := "https://r.jina.ai/"

/-- re.search for (youtube.com|youtu.be) on the raw URL (src/main.py
96-98), a plain substring test since the regex is literal. -/
def is_youtube_url (url : String) : Bool :=
  containsSubstr url "youtube.com" || containsSubstr url "youtu.be"

/-- urlparse(url).path.lower().endswith of .mp3 (src/main.py 100-101). -/
def is_podcast_url (url : String) : Bool :=
  listEndsWith (lowerChars (urlPathChars url.toList)) ".mp3".toList

/-- process_webpage (src/main.py 103-109): fetch the Jina reader URL and
extract text; any exception is wrapped into HTTPException 500 with the
given message. -/
def process_webpage (env : Env) (url : String) : Except ApiError String :=
  match env.fetchPage (JINA_READER_URL ++ url) with
  | .ok t => .ok t
  | .error e => .error (.httpError 500 ("Failed to process webpage: " ++ e))

/-- process_youtube (src/main.py 111-113): a placeholder string. -/
def process_youtube (url : String) : String :=
  "Placeholder: YouTube video transcript for " ++ url

/-- process_podcast (src/main.py 115-117): a placeholder string. -/
def process_podcast (url : String) : String :=
  "Placeholder: Podcast transcript for " ++ url

/-- process_media (src/main.py 119-130): youtube first, then podcast,
then webpage; returns the media type with the extracted content. -/
def process_media (env : Env) (url : String) : Except ApiError (String × String) :=
  if is_youtube_url url then .ok ("video", process_youtube url)
  else if is_podcast_url url then .ok ("podcast", process_podcast url)
  else (process_webpage env url).map (fun c => ("webpage", c))

/- ----------------------------------------------------------------- -/
/- SQL helpers: ORDER BY timestamp ASC as an insertion sort.          -/
/- ----------------------------------------------------------------- -/

def insertByTs (m : MessageRow) : List MessageRow → List MessageRow
  | [] => [m]
  | x :: xs => if m.timestamp ≤ x.timestamp then m :: x :: xs else x :: insertByTs m xs

/-- Sorting by ascending timestamp (ORDER BY timestamp ASC). -/
def sortByTs : List MessageRow → List MessageRow
  | [] => []
  | x :: xs => insertByTs x (sortByTs xs)

/-- The messages of one conversation in ascending timestamp order (the
SELECT of src/main.py 237-242 and 292-296). -/
def conversationMessages (db : DB) (cid : Nat) : List MessageRow :=
  sortByTs (db.messages.filter (fun m => m.conversation_id == cid))

/-- The (role, content) history handed to the continuation LLM call
(src/main.py 308). -/
def historyOf (db : DB) (cid : Nat) : List (String × String) :=
  (conversationMessages db cid).map (fun m => (m.role, m.content))

/-- The stored world model of a conversation, when the row exists. -/
def conversationWorldModel (db : DB) (cid : Nat) : Option Json :=
  (db.conversations.find? (fun c => c.id == cid)).map (fun c => c.world_model)

/- ----------------------------------------------------------------- -/
/- Endpoints.                                                         -/
/- ----------------------------------------------------------------- -/

/-- Request body of POST /api/analyze. -/
structure AnalyzeRequest where
  url : String
  initialThought : String

/-- POST /api/analyze (src/main.py 183-231).  Processes the media,
calls the LLM, inserts the conversation row and the user/assistant
message pair, and returns the fresh conversation id (serialized with
str() on the wire).  The whole body is wrapped in a try/except that
re-raises any exception as HTTPException(500, str(e)). -/
def analyze_media (env : Env) (db : DB) (req : AnalyzeRequest) :
    Except ApiError Nat × DB :=
  match process_media env req.url with
  | .error e => (.error (.httpError 500 (exceptionStr e)), db)
  | .ok pc =>
    match env.analyzeContent pc.2 req.initialThought with
    | .error e => (.error (.httpError 500 e), db)
    | .ok a =>
      let convId := db.nextId
      let conv : ConversationRow :=
        ⟨convId, req.url, pc.1, req.initialThought, a.response,
          WorldModel.toJson a.world_model, db.clock⟩
      let userMsg : MessageRow :=
        ⟨db.nextId + 1, convId, "user", req.initialThought, db.clock + 1⟩
      let aiMsg : MessageRow :=
        ⟨db.nextId + 2, convId, "assistant",
          a.response ++ "\n\n" ++ a.follow_up, db.clock + 2⟩
      (.ok convId,
        { db with
            conversations := db.conversations ++ [conv],
            messages := db.messages ++ [userMsg, aiMsg],
            nextId := db.nextId + 3,
            clock := db.clock + 3 })

/-- GET /api/conversations/{id} (src/main.py 233-244): the conversation
messages in ascending timestamp order, with no existence check. -/
def get_conversation (db : DB) (cid : Nat) :
    Except ApiError (List MessageRow) × DB :=
  (.ok (conversationMessages db cid), db)

structure ShareResponse where
  shareUrl : String

/-- POST /api/share (src/main.py 246-261).  When the conversation
exists, the share URL is the /share/ path of its id.  When it does not,
the source executes raise HTTPException(status_code=404,
message="Conversation not found"); HTTPException accepts detail, not
message, so constructing it raises TypeError, which the global handler
renders as a 500. -/
def share_conversation (db : DB) (cid : Nat) :
    Except ApiError ShareResponse × DB :=
  match db.conversations.find? (fun c => c.id == cid) with
  | some _ => (.ok ⟨"/share/" ++ toString cid⟩, db)
  | none =>
    (.error (.pyError "TypeError: HTTPException.init got an unexpected keyword argument message"),
      db)

/-- POST /api/webhooks (src/main.py 264-273): inserts a webhook row. -/
def create_webhook (db : DB) (url : String) (events : List String) (secret : String) :
    Except ApiError Nat × DB :=
  (.ok db.nextId,
    { db with
        webhooks := db.webhooks ++ [⟨db.nextId, url, secret, events⟩],
        nextId := db.nextId + 1 })

/-- Optional URL processing of the continuation endpoint (src/main.py
298-302): no URL gives no new content, otherwise the content part of
process_media. -/
def processNewContent (env : Env) (url : Option String) :
    Except ApiError (Option String) :=
  match url with
  | none => .ok none
  | some u => (process_media env u).map (fun p => some p.2)

/-- Response body of the continuation endpoint: the two inserted
messages as (id, role, content). -/
structure AddMessageResult where
  messages : List (Nat × String × String)

/-- POST /api/conversations/{id}/messages (src/main.py 280-342).
Looks up the conversation (404 when missing), loads the ordered message
history, optionally processes the new URL, parses the stored world model
(a pydantic validation error propagates as a plain exception), calls the
continuation LLM, then updates the conversation world model wholesale and
inserts the user/assistant message pair.  There is no try/except: non-404
exceptions reach the global handler. -/
def add_message (env : Env) (db : DB) (cid : Nat) (message : String)
    (url : Option String) : Except ApiError AddMessageResult × DB :=
  match db.conversations.find? (fun c => c.id == cid) with
  | none => (.error (.httpError 404 "Conversation not found"), db)
  | some conv =>
    match processNewContent env url with
    | .error e => (.error e, db)
    | .ok newContent =>
      match WorldModel.parse? conv.world_model with
      | none => (.error (.pyError "validation error for WorldModel"), db)
      | some wm =>
        match env.continueConv wm (historyOf db cid) newContent with
        | .error e => (.error (.pyError e), db)
        | .ok upd =>
          let newWM := WorldModel.toJson upd.updated_world_model
          let aiContent := upd.response ++ "\n\n" ++ upd.follow_up
          let userMsg : MessageRow := ⟨db.nextId, cid, "user", message, db.clock⟩
          let aiMsg : MessageRow :=
            ⟨db.nextId + 1, cid, "assistant", aiContent, db.clock + 1⟩
          (.ok ⟨[(db.nextId, "user", message), (db.nextId + 1, "assistant", aiContent)]⟩,
            { db with
                conversations := db.conversations.map
                  (fun c => if c.id == cid then { c with world_model := newWM } else c),
                messages := db.messages ++ [userMsg, aiMsg],
                nextId := db.nextId + 2,
                clock := db.clock + 2 })

/- ----------------------------------------------------------------- -/
/- Concrete fixtures used to instantiate the theorems.                -/
/- ----------------------------------------------------------------- -/

/-- A world model with all four fields. -/
def wm0 : WorldModel := ⟨some [], [], [], "s"⟩

/-- A continuation output returned by the LLM oracle. -/
def upd0 : ConversationUpdate := ⟨⟨some [("k", "v")], ["t"], ["q"], "s2"⟩, "r", "f", none⟩

/-- An oracle whose fetch and LLM calls all succeed. -/
def env0 : Env :=
  { fetchPage := fun _ => .ok "page text",
    analyzeContent := fun _ _ => .ok ⟨wm0, "r", "f"⟩,
    continueConv := fun _ _ _ => .ok upd0 }

/-- An oracle whose fetch and LLM calls all fail. -/
def envFail : Env :=
  { fetchPage := fun _ => .error "connection refused",
    analyzeContent := fun _ _ => .error "llm unavailable",
    continueConv := fun _ _ _ => .error "llm unavailable" }

/-- A stored conversation with a well-formed world model. -/
def conv0 : ConversationRow :=
  ⟨1, "https://example.com/a", "webpage", "i", "r", WorldModel.toJson wm0, 0⟩

/-- A database holding conv0 and no messages. -/
def db0 : DB := ⟨[conv0], [], [], 5, 10⟩

/-- A stored conversation whose world model lacks the required summary
field. -/
def convBad : ConversationRow :=
  ⟨1, "https://example.com/a", "webpage", "i", "r", Json.obj [], 0⟩

/-- A database holding convBad. -/
def dbBad : DB := ⟨[convBad], [], [], 5, 10⟩

/- ----------------------------------------------------------------- -/
/- Helper lemmas.                                                     -/
/- ----------------------------------------------------------------- -/

theorem find?_eq_none_of_forall {α : Type} (p : α → Bool) (l : List α)
    (h : ∀ x ∈ l, p x = false) : l.find? p = none :=
  List.find?_eq_none.mpr (fun x hx => by simp [h x hx])

theorem filter_eq_nil_of_forall {α : Type} (p : α → Bool) (l : List α)
    (h : ∀ x ∈ l, p x = false) : l.filter p = [] :=
  List.filter_eq_nil_iff.mpr (fun x hx => by simp [h x hx])

theorem find?_map_update (l : List ConversationRow) (cid : Nat) (wmj : Json)
    (conv : ConversationRow)
    (h : l.find? (fun c => c.id == cid) = some conv) :
    (l.map (fun c => if c.id == cid then { c with world_model := wmj } else c)).find?
        (fun c => c.id == cid)
      = some { conv with world_model := wmj } := by
  induction l with
  | nil => exact absurd h (by simp)
  | cons x xs ih =>
    simp only [List.map_cons]
    cases hx : (x.id == cid) with
    | true =>
      simp only [List.find?_cons, hx] at h
      injection h with h
      subst h
      rw [if_pos rfl]
      simp only [List.find?_cons, hx]
    | false =>
      simp only [List.find?_cons, hx] at h
      rw [if_neg (by simp)]
      simp only [List.find?_cons, hx]
      exact ih h

/- ----------------------------------------------------------------- -/
/- Claim theorems.                                                    -/
/- ----------------------------------------------------------------- -/

/-- C4: for every conversation identifier that does not exist in the
conversations table, POST /api/conversations/{id}/messages fails with a
404 not-found error, and the database is unchanged: no message row is
inserted and no world model is written. -/
theorem add_message_unknown_conversation_404 (env : Env) (db : DB) (cid : Nat)
    (message : String) (url : Option String)
    (h : ∀ c ∈ db.conversations, c.id ≠ cid) :
    add_message env db cid message url
      = (.error (.httpError 404 "Conversation not found"), db) := by
  have hf : db.conversations.find? (fun c => c.id == cid) = none :=
    find?_eq_none_of_forall _ _ (fun c hc => by simp [h c hc])
  simp [add_message, hf]

/-- Witness for C4 at a concrete unknown identifier over db0. -/
theorem add_message_unknown_conversation_404_witness :
    add_message env0 db0 99 "hello" none
      = (.error (.httpError 404 "Conversation not found"), db0) :=
  add_message_unknown_conversation_404 env0 db0 99 "hello" none
    (by intro c hc; simp [db0, conv0] at hc; subst hc; simp [conv0])

/-- C5: for every conversation identifier with no conversation row and
no message rows, GET /api/conversations/{id} succeeds with the empty
list rather than returning a not-found error. -/
theorem get_conversation_unknown_empty (db : DB) (cid : Nat)
    (hc : ∀ c ∈ db.conversations, c.id ≠ cid)
    (hm : ∀ m ∈ db.messages, m.conversation_id ≠ cid) :
    get_conversation db cid = (.ok [], db) := by
  have hf : db.messages.filter (fun m => m.conversation_id == cid) = [] :=
    filter_eq_nil_of_forall _ _ (fun m hmm => by simp [hm m hmm])
  simp [get_conversation, conversationMessages, hf, sortByTs]

/-- Witness for C5 at a concrete unknown identifier over db0. -/
theorem get_conversation_unknown_empty_witness :
    get_conversation db0 99 = (.ok [], db0) :=
  get_conversation_unknown_empty db0 99
    (by intro c hc; simp [db0, conv0] at hc; subst hc; simp [conv0])
    (by intro m hmm; simp [db0] at hmm)

/-- C3 counterpart: sharing an existing conversation returns the
/share/ path of its id, but sharing an unknown id does NOT return a 404:
the source passes the keyword message to HTTPException, which only
accepts detail, so the raise itself throws TypeError, and the global
handler renders it as a 500.  The code contradicts its evident intent
(status_code=404, text "Conversation not found"), so the claim marks a
code bug. -/
theorem share_conversation_unknown_id_is_500_not_404 :
    (share_conversation db0 1).1 = .ok ⟨"/share/1"⟩
    ∧ (share_conversation db0 99).1
        = .error (.pyError
            "TypeError: HTTPException.init got an unexpected keyword argument message")
    ∧ renderError
        (.pyError "TypeError: HTTPException.init got an unexpected keyword argument message")
        = (500, ⟨"TypeError: HTTPException.init got an unexpected keyword argument message"⟩)
    ∧ (500 : Nat) ≠ 404 := by
  refine ⟨rfl, rfl, rfl, by decide⟩

/-- C8: media classification is decided in a fixed order: video iff the
URL matches the YouTube pattern, otherwise podcast iff the lowercased
urlparse path ends in .mp3, otherwise webpage; the video and podcast
branches return placeholder strings independent of the fetch oracle, and
only the webpage branch performs the fetch; in particular a
YouTube-matching URL whose path ends in .mp3 is classified as video. -/
theorem media_classification :
    (∀ env url, is_youtube_url url = true →
        process_media env url
          = .ok ("video", "Placeholder: YouTube video transcript for " ++ url))
    ∧ (∀ env url, is_youtube_url url = false → is_podcast_url url = true →
        process_media env url
          = .ok ("podcast", "Placeholder: Podcast transcript for " ++ url))
    ∧ (∀ env url, is_youtube_url url = false → is_podcast_url url = false →
        process_media env url
          = (process_webpage env url).map (fun c => ("webpage", c)))
    ∧ (is_youtube_url "https://youtube.com/a.mp3" = true
        ∧ is_podcast_url "https://youtube.com/a.mp3" = true
        ∧ ∀ env, process_media env "https://youtube.com/a.mp3"
            = .ok ("video",
                "Placeholder: YouTube video transcript for https://youtube.com/a.mp3")) := by
  refine ⟨?_, ?_, ?_, by decide, by decide, ?_⟩
  · intro env url h
    simp [process_media, h, process_youtube]
  · intro env url h1 h2
    simp [process_media, h1, h2, process_podcast]
  · intro env url h1 h2
    simp [process_media, h1, h2]
  · intro env
    have h : is_youtube_url "https://youtube.com/a.mp3" = true := by decide
    simp [process_media, h, process_youtube]

/-- Witness for C8: the four branches exercised at concrete URLs with
the concrete oracle env0. -/
theorem media_classification_witness :
    process_media env0 "https://youtube.com/watch"
      = .ok ("video", "Placeholder: YouTube video transcript for https://youtube.com/watch")
    ∧ process_media env0 "https://example.com/ep.mp3"
      = .ok ("podcast", "Placeholder: Podcast transcript for https://example.com/ep.mp3")
    ∧ process_media env0 "https://example.com/a"
      = (process_webpage env0 "https://example.com/a").map (fun c => ("webpage", c))
    ∧ process_media env0 "https://youtube.com/a.mp3"
      = .ok ("video", "Placeholder: YouTube video transcript for https://youtube.com/a.mp3") :=
  ⟨media_classification.1 env0 _ (by decide),
   media_classification.2.1 env0 _ (by decide) (by decide),
   media_classification.2.2.1 env0 _ (by decide) (by decide),
   media_classification.2.2.2.2.2 env0⟩

theorem process_media_error_500 (env : Env) (url : String) (e : ApiError)
    (h : process_media env url = .error e) : ∃ m, e = .httpError 500 m := by
  unfold process_media process_webpage at h
  by_cases hy : is_youtube_url url = true
  · simp [hy] at h
  · by_cases hp : is_podcast_url url = true
    · simp [hy, hp] at h
    · simp only [hy, hp, if_false, Bool.false_eq_true] at h
      cases hf : env.fetchPage (JINA_READER_URL ++ url) with
      | ok t => rw [hf] at h; simp [Except.map] at h
      | error s =>
        rw [hf] at h
        simp [Except.map] at h
        exact ⟨_, h.symm⟩

theorem processNewContent_error_500 (env : Env) (u : Option String) (e : ApiError)
    (h : processNewContent env u = .error e) : ∃ m, e = .httpError 500 m := by
  cases u with
  | none => simp [processNewContent] at h
  | some s =>
    simp only [processNewContent] at h
    cases hp : process_media env s with
    | ok p => rw [hp] at h; simp [Except.map] at h
    | error e2 =>
      rw [hp] at h
      simp [Except.map] at h
      subst h
      exact process_media_error_500 env s e2 hp

/-- C7: every error other than the missing-conversation case on share or
continue renders to the client as a generic failure, HTTP 500 with a
body of shape detail-only: any analyze error is a 500; fetching a
conversation never errors; share errors arise only in the
missing-conversation case; a continuation error is either the 404
missing-conversation HTTPException or renders as a 500 with a detail
body; webhook registration never errors.  There is no retry: each
endpoint is a single pure call. -/
theorem errors_collapse_to_500 :
    (∀ env db req e, (analyze_media env db req).1 = .error e →
        renderError e = (500, ⟨errorDetail e⟩))
    ∧ (∀ db cid, ExOk (get_conversation db cid).1 = true)
    ∧ (∀ db cid e, (share_conversation db cid).1 = .error e →
        db.conversations.find? (fun c => c.id == cid) = none
          ∧ renderError e = (500, ⟨errorDetail e⟩))
    ∧ (∀ env db cid m u e, (add_message env db cid m u).1 = .error e →
        e = .httpError 404 "Conversation not found"
          ∨ renderError e = (500, ⟨errorDetail e⟩))
    ∧ (∀ db u ev s, ExOk (create_webhook db u ev s).1 = true) := by
  refine ⟨?_, ?_, ?_, ?_, ?_⟩
  · intro env db req e h
    cases hp : process_media env req.url with
    | error e2 =>
      simp [analyze_media, hp] at h
      subst h
      rfl
    | ok pc =>
      cases ha : env.analyzeContent pc.2 req.initialThought with
      | error s =>
        simp [analyze_media, hp, ha] at h
        subst h
        rfl
      | ok a => simp [analyze_media, hp, ha] at h
  · intro db cid
    rfl
  · intro db cid e h
    cases hf : db.conversations.find? (fun c => c.id == cid) with
    | some conv => simp [share_conversation, hf] at h
    | none =>
      simp [share_conversation, hf] at h
      subst h
      exact ⟨rfl, rfl⟩
  · intro env db cid m u e h
    cases hf : db.conversations.find? (fun c => c.id == cid) with
    | none =>
      simp [add_message, hf] at h
      subst h
      exact Or.inl rfl
    | some conv =>
      cases hn : processNewContent env u with
      | error e2 =>
        simp [add_message, hf, hn] at h
        subst h
        obtain ⟨msg, hmsg⟩ := processNewContent_error_500 env u e2 hn
        subst hmsg
        exact Or.inr rfl
      | ok nc =>
        cases hw : WorldModel.parse? conv.world_model with
        | none =>
          simp [add_message, hf, hn, hw] at h
          subst h
          exact Or.inr rfl
        | some wm =>
          cases hl : env.continueConv wm (historyOf db cid) nc with
          | error s =>
            simp [add_message, hf, hn, hw, hl] at h
            subst h
            exact Or.inr rfl
          | ok upd => simp [add_message, hf, hn, hw, hl] at h
  · intro db u ev s
    rfl

/-- Witness for C7: a failing fetch on analyze renders as a 500 with a
detail-shaped body. -/
theorem errors_collapse_to_500_witness :
    renderError (.httpError 500 "500: Failed to process webpage: connection refused")
      = (500, ⟨errorDetail (.httpError 500 "500: Failed to process webpage: connection refused")⟩) :=
  errors_collapse_to_500.1 envFail db0 ⟨"https://example.com/a", "i"⟩
    (.httpError 500 "500: Failed to process webpage: connection refused") rfl

/-- C9: message rows are append-only and created in user/assistant pairs:
a successful analysis or continuation appends exactly one role user
message then one role assistant message, a failed one appends nothing,
and no endpoint updates or deletes an existing message row (the old
message list is always a prefix of the new one). -/
theorem messages_append_only :
    (∀ env db req, ∃ rest,
        (analyze_media env db req).2.messages = db.messages ++ rest
        ∧ ((ExOk (analyze_media env db req).1 = true
              ∧ ∃ um am, rest = [um, am] ∧ um.role = "user" ∧ am.role = "assistant")
            ∨ (ExOk (analyze_media env db req).1 = false ∧ rest = [])))
    ∧ (∀ db cid, (get_conversation db cid).2.messages = db.messages)
    ∧ (∀ db cid, (share_conversation db cid).2.messages = db.messages)
    ∧ (∀ db u ev s, (create_webhook db u ev s).2.messages = db.messages)
    ∧ (∀ env db cid m u, ∃ rest,
        (add_message env db cid m u).2.messages = db.messages ++ rest
        ∧ ((ExOk (add_message env db cid m u).1 = true
              ∧ ∃ um am, rest = [um, am] ∧ um.role = "user" ∧ am.role = "assistant")
            ∨ (ExOk (add_message env db cid m u).1 = false ∧ rest = []))) := by
  refine ⟨?_, ?_, ?_, ?_, ?_⟩
  · intro env db req
    cases hp : process_media env req.url with
    | error e =>
      refine ⟨[], ?_, Or.inr ⟨?_, rfl⟩⟩ <;> simp [analyze_media, hp, ExOk]
    | ok pc =>
      cases ha : env.analyzeContent pc.2 req.initialThought with
      | error s =>
        refine ⟨[], ?_, Or.inr ⟨?_, rfl⟩⟩ <;> simp [analyze_media, hp, ha, ExOk]
      | ok a =>
        refine ⟨[⟨db.nextId + 1, db.nextId, "user", req.initialThought, db.clock + 1⟩,
                 ⟨db.nextId + 2, db.nextId, "assistant",
                   a.response ++ "\n\n" ++ a.follow_up, db.clock + 2⟩],
                ?_, Or.inl ⟨?_, _, _, rfl, rfl, rfl⟩⟩ <;>
          simp [analyze_media, hp, ha, ExOk]
  · intro db cid
    rfl
  · intro db cid
    cases hf : db.conversations.find? (fun c => c.id == cid) with
    | some conv => simp [share_conversation, hf]
    | none => simp [share_conversation, hf]
  · intro db u ev s
    rfl
  · intro env db cid m u
    cases hf : db.conversations.find? (fun c => c.id == cid) with
    | none => refine ⟨[], ?_, Or.inr ⟨?_, rfl⟩⟩ <;> simp [add_message, hf, ExOk]
    | some conv =>
      cases hn : processNewContent env u with
      | error e => refine ⟨[], ?_, Or.inr ⟨?_, rfl⟩⟩ <;> simp [add_message, hf, hn, ExOk]
      | ok nc =>
        cases hw : WorldModel.parse? conv.world_model with
        | none =>
          refine ⟨[], ?_, Or.inr ⟨?_, rfl⟩⟩ <;> simp [add_message, hf, hn, hw, ExOk]
        | some wm =>
          cases hl : env.continueConv wm (historyOf db cid) nc with
          | error s =>
            refine ⟨[], ?_, Or.inr ⟨?_, rfl⟩⟩ <;> simp [add_message, hf, hn, hw, hl, ExOk]
          | ok upd =>
            refine ⟨[⟨db.nextId, cid, "user", m, db.clock⟩,
                     ⟨db.nextId + 1, cid, "assistant",
                       upd.response ++ "\n\n" ++ upd.follow_up, db.clock + 1⟩],
                    ?_, Or.inl ⟨?_, _, _, rfl, rfl, rfl⟩⟩ <;>
              simp [add_message, hf, hn, hw, hl, ExOk]

/-- C10: in the continuation endpoint every database write happens after
validation and the LLM call: any failing run leaves the database
unchanged; in particular a stored world model that fails pydantic
validation, a failing optional-URL fetch, or a failing LLM call each
yield an error with no message appended and the world model not
overwritten; and a stored world model object lacking the required
summary field does fail validation. -/
theorem continuation_no_partial_writes :
    (∀ env db cid m u, ExOk (add_message env db cid m u).1 = false →
        (add_message env db cid m u).2 = db)
    ∧ (∀ env db cid m u conv nc,
        db.conversations.find? (fun c => c.id == cid) = some conv →
        processNewContent env u = .ok nc →
        WorldModel.parse? conv.world_model = none →
        ExOk (add_message env db cid m u).1 = false
          ∧ (add_message env db cid m u).2 = db)
    ∧ (∀ env db cid m u conv e,
        db.conversations.find? (fun c => c.id == cid) = some conv →
        processNewContent env u = .error e →
        ExOk (add_message env db cid m u).1 = false
          ∧ (add_message env db cid m u).2 = db)
    ∧ (∀ env db cid m u conv nc wm s,
        db.conversations.find? (fun c => c.id == cid) = some conv →
        processNewContent env u = .ok nc →
        WorldModel.parse? conv.world_model = some wm →
        env.continueConv wm (historyOf db cid) nc = .error s →
        ExOk (add_message env db cid m u).1 = false
          ∧ (add_message env db cid m u).2 = db)
    ∧ (∀ fs : List (String × Json), fs.lookup "summary" = none →
        WorldModel.parse? (.obj fs) = none) := by
  refine ⟨?_, ?_, ?_, ?_, ?_⟩
  · intro env db cid m u h
    cases hf : db.conversations.find? (fun c => c.id == cid) with
    | none => simp [add_message, hf]
    | some conv =>
      cases hn : processNewContent env u with
      | error e => simp [add_message, hf, hn]
      | ok nc =>
        cases hw : WorldModel.parse? conv.world_model with
        | none => simp [add_message, hf, hn, hw]
        | some wm =>
          cases hl : env.continueConv wm (historyOf db cid) nc with
          | error s => simp [add_message, hf, hn, hw, hl]
          | ok upd => simp [add_message, hf, hn, hw, hl, ExOk] at h
  · intro env db cid m u conv nc hf hn hw
    constructor <;> simp [add_message, hf, hn, hw, ExOk]
  · intro env db cid m u conv e hf hn
    constructor <;> simp [add_message, hf, hn, ExOk]
  · intro env db cid m u conv nc wm s hf hn hw hl
    constructor <;> simp [add_message, hf, hn, hw, hl, ExOk]
  · intro fs h
    simp [WorldModel.parse?, h]

/-- Witness for C10: continuing the conversation whose stored world
model lacks the summary field errors and leaves the database
unchanged. -/
theorem continuation_no_partial_writes_witness :
    ExOk (add_message env0 dbBad 1 "m" none).1 = false
      ∧ (add_message env0 dbBad 1 "m" none).2 = dbBad :=
  continuation_no_partial_writes.2.1 env0 dbBad 1 "m" none convBad none rfl rfl rfl

/-- C6: a successful continuation rewrites the conversations table as a
per-row map that touches only the world_model field of the target row
(every other field and every other row is mapped to itself); and no
endpoint deletes a conversation row: analyze only appends, fetch, share
and webhook registration leave the table untouched, and continuation
preserves every row up to its world_model field. -/
theorem conversation_rows_frame :
    (∀ env db cid m u res db', add_message env db cid m u = (.ok res, db') →
        ∃ wmj, db'.conversations = db.conversations.map
          (fun c => if c.id == cid then { c with world_model := wmj } else c))
    ∧ (∀ env db req, ∀ c ∈ db.conversations, c ∈ (analyze_media env db req).2.conversations)
    ∧ (∀ db cid, (get_conversation db cid).2.conversations = db.conversations)
    ∧ (∀ db cid, (share_conversation db cid).2.conversations = db.conversations)
    ∧ (∀ db u ev s, (create_webhook db u ev s).2.conversations = db.conversations)
    ∧ (∀ env db cid m u, ∀ c ∈ db.conversations,
        ∃ c' , c' ∈ (add_message env db cid m u).2.conversations
          ∧ c'.id = c.id ∧ c'.url = c.url ∧ c'.media_type = c.media_type
          ∧ c'.user_insight = c.user_insight ∧ c'.ai_analysis = c.ai_analysis
          ∧ c'.created_at = c.created_at) := by
  refine ⟨?_, ?_, ?_, ?_, ?_, ?_⟩
  · intro env db cid m u res db' h
    cases hf : db.conversations.find? (fun c => c.id == cid) with
    | none => simp [add_message, hf] at h
    | some conv =>
      cases hn : processNewContent env u with
      | error e => simp [add_message, hf, hn] at h
      | ok nc =>
        cases hw : WorldModel.parse? conv.world_model with
        | none => simp [add_message, hf, hn, hw] at h
        | some wm =>
          cases hl : env.continueConv wm (historyOf db cid) nc with
          | error s => simp [add_message, hf, hn, hw, hl] at h
          | ok upd =>
            simp only [add_message, hf, hn, hw, hl, Prod.mk.injEq] at h
            obtain ⟨h1, h2⟩ := h
            subst h2
            exact ⟨WorldModel.toJson upd.updated_world_model, rfl⟩
  · intro env db req c hc
    cases hp : process_media env req.url with
    | error e => simpa [analyze_media, hp] using hc
    | ok pc =>
      cases ha : env.analyzeContent pc.2 req.initialThought with
      | error s => simpa [analyze_media, hp, ha] using hc
      | ok a =>
        simp only [analyze_media, hp, ha]
        exact List.mem_append_left _ hc
  · intro db cid
    rfl
  · intro db cid
    cases hf : db.conversations.find? (fun c => c.id == cid) with
    | some conv => simp [share_conversation, hf]
    | none => simp [share_conversation, hf]
  · intro db u ev s
    rfl
  · intro env db cid m u c hc
    cases hf : db.conversations.find? (fun c => c.id == cid) with
    | none => exact ⟨c, by simp [add_message, hf, hc], rfl, rfl, rfl, rfl, rfl, rfl⟩
    | some conv =>
      cases hn : processNewContent env u with
      | error e => exact ⟨c, by simp [add_message, hf, hn, hc], rfl, rfl, rfl, rfl, rfl, rfl⟩
      | ok nc =>
        cases hw : WorldModel.parse? conv.world_model with
        | none => exact ⟨c, by simp [add_message, hf, hn, hw, hc], rfl, rfl, rfl, rfl, rfl, rfl⟩
        | some wm =>
          cases hl : env.continueConv wm (historyOf db cid) nc with
          | error s =>
            exact ⟨c, by simp [add_message, hf, hn, hw, hl, hc], rfl, rfl, rfl, rfl, rfl, rfl⟩
          | ok upd =>
            refine ⟨if c.id == cid
                then { c with world_model :=
                  WorldModel.toJson upd.updated_world_model } else c, ?_, ?_⟩
            · simp only [add_message, hf, hn, hw, hl]
              exact List.mem_map_of_mem _ hc
            · by_cases hcid : (c.id == cid) = true
              · simp [hcid]
              · simp [hcid]

/-- Witness for C6: a successful concrete continuation rewrites the
conversations table as the world-model-only map. -/
theorem conversation_rows_frame_witness :
    ∃ wmj, (add_message env0 db0 1 "hi" none).2.conversations
      = db0.conversations.map
          (fun c => if c.id == 1 then { c with world_model := wmj } else c) :=
  conversation_rows_frame.1 env0 db0 1 "hi" none
    ⟨[(5, "user", "hi"), (6, "assistant", "r\n\nf")]⟩
    (add_message env0 db0 1 "hi" none).2 rfl

/-- C1: a successful continuation of an existing conversation appends
exactly two new message rows — first role user with the given message
text, then role assistant — and overwrites the stored world model
wholesale with the document the LLM returned, so any top-level field
absent from the new document is no longer present in the stored world
model after the call. -/
theorem add_message_success (env : Env) (db : DB) (cid : Nat) (message : String)
    (url : Option String) (conv : ConversationRow) (nc : Option String)
    (wm : WorldModel) (upd : ConversationUpdate)
    (hfind : db.conversations.find? (fun c => c.id == cid) = some conv)
    (hnc : processNewContent env url = .ok nc)
    (hparse : WorldModel.parse? conv.world_model = some wm)
    (hllm : env.continueConv wm (historyOf db cid) nc = .ok upd) :
    ∃ um am,
      (add_message env db cid message url).2.messages = db.messages ++ [um, am]
      ∧ um.role = "user" ∧ um.content = message
      ∧ am.role = "assistant" ∧ am.content = upd.response ++ "\n\n" ++ upd.follow_up
      ∧ (add_message env db cid message url).1
          = .ok ⟨[(um.id, "user", message), (am.id, "assistant", am.content)]⟩
      ∧ conversationWorldModel (add_message env db cid message url).2 cid
          = some (WorldModel.toJson upd.updated_world_model)
      ∧ (∀ key, Json.hasKey (WorldModel.toJson upd.updated_world_model) key = false →
          ∀ j, conversationWorldModel (add_message env db cid message url).2 cid = some j →
            Json.hasKey j key = false) := by
  have hcw : conversationWorldModel (add_message env db cid message url).2 cid
      = some (WorldModel.toJson upd.updated_world_model) := by
    simp only [conversationWorldModel, add_message, hfind, hnc, hparse, hllm]
    rw [find?_map_update _ _ _ _ hfind]
    rfl
  refine ⟨⟨db.nextId, cid, "user", message, db.clock⟩,
          ⟨db.nextId + 1, cid, "assistant",
            upd.response ++ "\n\n" ++ upd.follow_up, db.clock + 1⟩,
          ?_, rfl, rfl, rfl, rfl, ?_, hcw, ?_⟩
  · simp [add_message, hfind, hnc, hparse, hllm]
  · simp [add_message, hfind, hnc, hparse, hllm]
  · intro key hk j hj
    rw [hcw] at hj
    injection hj with hj
    subst hj
    exact hk

/-- Witness for C1: the concrete continuation over db0 with oracle env0
appends the user/assistant pair and stores the world model upd0
returned. -/
theorem add_message_success_witness :
    ∃ um am,
      (add_message env0 db0 1 "hi" none).2.messages = db0.messages ++ [um, am]
      ∧ um.role = "user" ∧ um.content = "hi"
      ∧ am.role = "assistant" ∧ am.content = upd0.response ++ "\n\n" ++ upd0.follow_up
      ∧ (add_message env0 db0 1 "hi" none).1
          = .ok ⟨[(um.id, "user", "hi"), (am.id, "assistant", am.content)]⟩
      ∧ conversationWorldModel (add_message env0 db0 1 "hi" none).2 1
          = some (WorldModel.toJson upd0.updated_world_model)
      ∧ (∀ key, Json.hasKey (WorldModel.toJson upd0.updated_world_model) key = false →
          ∀ j, conversationWorldModel (add_message env0 db0 1 "hi" none).2 1 = some j →
            Json.hasKey j key = false) :=
  add_message_success env0 db0 1 "hi" none conv0 none wm0 upd0 rfl rfl rfl rfl

/-- C2: for a valid webpage URL (neither YouTube- nor podcast-matching,
with a succeeding fetch) and an initial thought, a successful analyze
call returns a conversation identifier that did not exist before, and
fetching that conversation afterwards returns exactly two messages in
ascending timestamp order: role user with the original thought, then
role assistant with the LLM response text concatenated (with a blank
line) with the follow-up question. -/
theorem analyze_then_get (env : Env) (db : DB) (req : AnalyzeRequest)
    (text : String) (a : AnalysisResponse)
    (hconvfresh : ∀ c ∈ db.conversations, c.id ≠ db.nextId)
    (hmsgfresh : ∀ m ∈ db.messages, m.conversation_id ≠ db.nextId)
    (hyt : is_youtube_url req.url = false)
    (hpod : is_podcast_url req.url = false)
    (hfetch : env.fetchPage (JINA_READER_URL ++ req.url) = .ok text)
    (hllm : env.analyzeContent text req.initialThought = .ok a) :
    ∃ cid db' um am,
      analyze_media env db req = (.ok cid, db')
      ∧ (∀ c ∈ db.conversations, c.id ≠ cid)
      ∧ (get_conversation db' cid).1 = .ok [um, am]
      ∧ um.role = "user" ∧ um.content = req.initialThought
      ∧ am.role = "assistant" ∧ am.content = a.response ++ "\n\n" ++ a.follow_up
      ∧ um.timestamp < am.timestamp := by
  have hpm : process_media env req.url = .ok ("webpage", text) := by
    simp [process_media, hyt, hpod, process_webpage, hfetch, Except.map]
  refine ⟨db.nextId,
      { db with
          conversations := db.conversations ++
            [⟨db.nextId, req.url, "webpage", req.initialThought, a.response,
              WorldModel.toJson a.world_model, db.clock⟩],
          messages := db.messages ++
            [⟨db.nextId + 1, db.nextId, "user", req.initialThought, db.clock + 1⟩,
             ⟨db.nextId + 2, db.nextId, "assistant",
               a.response ++ "\n\n" ++ a.follow_up, db.clock + 2⟩],
          nextId := db.nextId + 3,
          clock := db.clock + 3 },
      ⟨db.nextId + 1, db.nextId, "user", req.initialThought, db.clock + 1⟩,
      ⟨db.nextId + 2, db.nextId, "assistant",
        a.response ++ "\n\n" ++ a.follow_up, db.clock + 2⟩,
      ?_, hconvfresh, ?_, rfl, rfl, rfl, rfl,
      by show db.clock + 1 < db.clock + 2; omega⟩
  · simp [analyze_media, hpm, hllm]
  · have hfil : db.messages.filter
        (fun m => m.conversation_id == db.nextId) = [] :=
      filter_eq_nil_of_forall _ _ (fun m hm => by simp [hmsgfresh m hm])
    simp only [analyze_media, hpm, hllm, get_conversation, conversationMessages]
    rw [List.filter_append, hfil]
    simp [sortByTs, insertByTs]

/-- Witness for C2: the concrete pipeline over db0 with oracle env0 and
a plain webpage URL. -/
theorem analyze_then_get_witness :
    ∃ cid db' um am,
      analyze_media env0 db0 ⟨"https://example.com/a", "thought"⟩ = (.ok cid, db')
      ∧ (∀ c ∈ db0.conversations, c.id ≠ cid)
      ∧ (get_conversation db' cid).1 = .ok [um, am]
      ∧ um.role = "user" ∧ um.content = "thought"
      ∧ am.role = "assistant" ∧ am.content = "r" ++ "\n\n" ++ "f"
      ∧ um.timestamp < am.timestamp :=
  analyze_then_get env0 db0 ⟨"https://example.com/a", "thought"⟩ "page text" ⟨wm0, "r", "f"⟩
    (by intro c hc; simp [db0, conv0] at hc; subst hc; simp [conv0, db0])
    (by intro m hm; simp [db0] at hm)
    (by decide) (by decide) rfl rfl

end Radar
